import Mathlib

/-!
Shallow embedding of the heuristic scoring engine of PeerReview-AI
(`app/scoring.py`).  Python floats are modelled as exact rationals (ℚ);
every reachable score is an exact multiple of 1/10, so all threshold and
bound statements below are insensitive to this choice.  Python dicts that
the code builds with a fixed key order are modelled as association lists
in that order.
-/

set_option maxRecDepth 100000

namespace PeerReviewAI

/-- Characters treated as whitespace by Python's `str.strip`, `str.split`
and the regex class `\s` (ASCII portion; the program's Portuguese texts
contain no exotic Unicode spaces). -/
def pySpace (c : Char) : Bool :=
  c = ' ' || c = '\t' || c = '\n' || c = '\r' || c = '\x0b' || c = '\x0c'

/-- Python `\w` (letters, digits, underscore): ASCII plus the Latin-1
letters, which covers the Portuguese texts the program handles. -/
def isWordChar (c : Char) : Bool :=
  c.isAlpha || c.isDigit || c = '_' ||
  (0xC0 ≤ c.toNat && c.toNat ≤ 0xFF && c.toNat ≠ 0xD7 && c.toNat ≠ 0xF7)

/-- Python `str.lower` on one character (ASCII plus Latin-1 range). -/
def charLower (c : Char) : Char :=
  if 'A' ≤ c && c ≤ 'Z' then Char.ofNat (c.toNat + 32)
  else if 0xC0 ≤ c.toNat && c.toNat ≤ 0xDE && c.toNat ≠ 0xD7 then
    Char.ofNat (c.toNat + 32)
  else c

/-- Python `str.lower`. -/
def pyLower (s : String) : String := ⟨s.data.map charLower⟩

/-- Python `str.strip`: drop leading and trailing whitespace. -/
def pyStrip (s : String) : String :=
  ⟨((s.data.dropWhile pySpace).reverse.dropWhile pySpace).reverse⟩

/-- Substring containment on character lists (Python's `sub in t`). -/
def listContains (t sub : List Char) : Bool :=
  match t with
  | [] => sub.isEmpty
  | _ :: t' => sub.isPrefixOf t || listContains t' sub

/-- Python's substring test `sub in t`. -/
def containsS (t sub : String) : Bool := listContains t.data sub.data

theorem isPrefixOf_eq_true : ∀ (l1 l2 : List Char),
    l1.isPrefixOf l2 = true ↔ l1 <+: l2
  | [], _ => by simp [List.isPrefixOf]
  | _ :: _, [] => by simp [List.isPrefixOf]
  | a :: l1, b :: l2 => by
    rw [show (a :: l1).isPrefixOf (b :: l2) = (a == b && l1.isPrefixOf l2)
        from rfl,
      List.cons_prefix_cons, Bool.and_eq_true, beq_iff_eq,
      isPrefixOf_eq_true l1 l2]

theorem listContains_iff (t sub : List Char) :
    listContains t sub = true ↔ sub <:+: t := by
  induction t with
  | nil =>
    simp [listContains, List.isEmpty_iff, List.infix_nil]
  | cons c t' ih =>
    rw [ List.infix_cons_iff]
    simp [listContains, ih, isPrefixOf_eq_true]

/-- Constant `SECTION_HINTS` of `scoring.py`: keyword hints per canonical section. -/
def SECTION_HINTS : List (String × List String) :=
  [("introdução", ["introdução", "contexto", "motivação", "objetivo"]),
   ("metodologia",
    ["método", "metodologia", "procedimentos", "amostra", "amostragem",
     "instrumento"]),
   ("resultados", ["resultados", "achados", "achado", "experimentos", "análise"]),
   ("discussão", ["discussão", "implicações", "interpretação", "limitações"]),
   ("conclusões", ["conclusão", "conclusões", "trabalhos futuros", "futuros"])]

/-- Function `section_coverage` of `scoring.py`: for each section, the number of
hints occurring as substrings of the lowercased text. -/
def section_coverage (text : String) : List (String × Nat) :=
  SECTION_HINTS.map fun sh =>
    (sh.1, sh.2.countP fun h => containsS (pyLower text) h)

/-- Python `cov.get(k, 0)` on the association-list model of the dict. -/
def covGet (cov : List (String × Nat)) (k : String) : Nat :=
  match cov.find? (fun p => p.1 == k) with
  | some p => p.2
  | none => 0

example :
    covGet (section_coverage "metodologia amostra procedimentos") "metodologia"
      = 3 := by decide

example : containsS "xamostragemy" "amostra" = true := by decide

/-- Maximal runs of characters satisfying `p`; `cur` is the current run,
reversed.  Instantiated at `isWordChar` this is `re.findall(r"\w+", ·)`,
and at non-whitespace it is Python's `str.split()`. -/
def runsAux (p : Char → Bool) : List Char → List Char → List (List Char)
  | [], cur => if cur.isEmpty then [] else [cur.reverse]
  | c :: cs, cur =>
    if p c then runsAux p cs (c :: cur)
    else if cur.isEmpty then runsAux p cs []
    else cur.reverse :: runsAux p cs []

/-- Maximal runs of characters satisfying `p` in `s`. -/
def runs (p : Char → Bool) (s : List Char) : List (List Char) := runsAux p s []

/-- The sentence-terminal punctuation class `[.!?]` of `scoring.py`. -/
def isTermPunct (c : Char) : Bool := c = '.' || c = '!' || c = '?'

/-- One pass of `re.split(r"[.!?]\s+", ·)`: `cur` is the reversed current
piece; on a terminator followed by whitespace the whole separator (the
terminator plus the maximal whitespace run) is consumed.  The fuel only
guarantees termination; it is never exhausted when it starts at
`length + 1`. -/
def sentSplitAux : Nat → List Char → List Char → List (List Char)
  | 0, s, cur => [cur.reverse ++ s]
  | _ + 1, [], cur => [cur.reverse]
  | fuel + 1, c :: cs, cur =>
    if isTermPunct c && (match cs with | c2 :: _ => pySpace c2 | [] => false) then
      cur.reverse :: sentSplitAux fuel (cs.dropWhile pySpace) []
    else
      sentSplitAux fuel cs (c :: cur)

/-- Model of `re.split(r"[.!?]\s+", ·)` on a character list. -/
def sentSplit (s : List Char) : List (List Char) := sentSplitAux (s.length + 1) s []

/-- Whether the text contains a sentence-terminal punctuation character
followed by a whitespace character (i.e. whether `re.split(r"[.!?]\s+", ·)`
finds any separator). -/
def hasSentBreak : List Char → Bool
  | c1 :: c2 :: rest => (isTermPunct c1 && pySpace c2) || hasSentBreak (c2 :: rest)
  | _ => false

/-- The record returned by `readability_signals` in `scoring.py`. -/
structure Readability where
  word_count : Nat
  sentence_count : Nat
  avg_word_len : ℚ
  avg_sentence_words : ℚ
  flesch_kincaid : ℚ

/-- Total `len(s.split())` over the sentence pieces. -/
def sentWordSum (sents : List (List Char)) : Nat :=
  (sents.map fun s => (runs (fun c => !pySpace c) s).length).sum

/-- Function `readability_signals` of `scoring.py`.  The decimal literals 0.39 and
11.8 of the source are the exact rationals 39/100 and 118/10. -/
def readability_signals (text : String) : Readability :=
  let ws := runs isWordChar text.data
  let sentences := sentSplit (pyStrip text).data
  let word_count := ws.length
  let sentence_count := sentences.length
  let avg_word_len : ℚ :=
    if 0 < word_count then ((ws.map List.length).sum : ℚ) / word_count else 0
  let avg_sentence_words : ℚ :=
    if 0 < sentence_count then (sentWordSum sentences : ℚ) / sentence_count
    else 0
  let fk : ℚ :=
    if 0 < word_count ∧ 0 < sentence_count then
      (39 / 100) * avg_sentence_words + (118 / 10) * avg_word_len
    else 0
  ⟨word_count, sentence_count, avg_word_len, avg_sentence_words, fk⟩

/-- Holds when `w` is a prefix of `s` and, right after it, `s` ends or continues with
a non-word character (the trailing `\b`). -/
def boundedAt : List Char → List Char → Bool
  | [], [] => true
  | [], c :: _ => !isWordChar c
  | _ :: _, [] => false
  | w :: wrest, c :: crest => w == c && boundedAt wrest crest

/-- Scan for `re.search(r"\b(w1|...|wn)\b", s)` where every alternative
starts and ends with a word character; `prev` records whether the
previous character is a word character (the leading `\b`). -/
def wordSearchAux (ws : List (List Char)) : Bool → List Char → Bool
  | _, [] => false
  | prev, c :: cs =>
    (!prev && ws.any fun w => boundedAt w (c :: cs)) ||
      wordSearchAux ws (isWordChar c) cs

/-- Model of `re.search(r"\b(...)\b", s) is not None` for a
word-alternation pattern. -/
def wordSearch (ws : List String) (s : String) : Bool :=
  wordSearchAux (ws.map String.data) false s.data

example : wordSearch ["literatura", "referênci"] "a literatura diz" = true := by
  decide

example : wordSearch ["literatura", "referênci"] "as referências dizem" = false := by
  decide

example :
    (readability_signals "Um texto. Com duas frases").sentence_count = 2 := by
  decide

/-- Regular expressions over characters, with classes given by a
predicate; enough to express the citation patterns of `scoring.py`. -/
inductive Reg : Type where
  | emp : Reg
  | eps : Reg
  | cls : (Char → Bool) → Reg
  | cat : Reg → Reg → Reg
  | alt : Reg → Reg → Reg
  | star : Reg → Reg

/-- Does `r` accept the empty string? -/
def nullable : Reg → Bool
  | .emp => false
  | .eps => true
  | .cls _ => false
  | .cat a b => nullable a && nullable b
  | .alt a b => nullable a || nullable b
  | .star _ => true

/-- Concatenation smart constructor (keeps derivatives small). -/
def rcat : Reg → Reg → Reg
  | .emp, _ => .emp
  | _, .emp => .emp
  | .eps, b => b
  | a, .eps => a
  | a, b => .cat a b

/-- Alternation smart constructor. -/
def ralt : Reg → Reg → Reg
  | .emp, b => b
  | a, .emp => a
  | a, b => .alt a b

/-- Brzozowski derivative. -/
def deriv : Reg → Char → Reg
  | .emp, _ => .emp
  | .eps, _ => .emp
  | .cls p, c => if p c then .eps else .emp
  | .cat a b, c =>
    if nullable a then ralt (rcat (deriv a c) b) (deriv b c)
    else rcat (deriv a c) b
  | .alt a b, c => ralt (deriv a c) (deriv b c)
  | .star a, c => rcat (deriv a c) (.star a)

/-- All lengths `l` such that the first `l` characters of `s` match `r`. -/
def matchLens : Reg → List Char → List Nat
  | .emp, _ => []
  | r, [] => if nullable r then [0] else []
  | r, c :: cs =>
    (if nullable r then [0] else []) ++ (matchLens (deriv r c) cs).map (· + 1)

/-- Largest element of a list of naturals. -/
def maxNat : List Nat → Option Nat
  | [] => none
  | n :: ns => some (match maxNat ns with | none => n | some m => max n m)

/-- Number of matches `re.findall` reports: scan left to right, at each
position take the longest match (the citation patterns are deterministic,
so Python's greedy backtracking and longest-match agree on them), and
continue right after its end.  The fuel only guarantees termination; it is
never exhausted when it starts at `length + 1`. -/
def findallAux (r : Reg) : Nat → List Char → Nat
  | 0, _ => 0
  | _ + 1, [] => if nullable r then 1 else 0
  | fuel + 1, c :: cs =>
    match maxNat (matchLens r (c :: cs)) with
    | none => findallAux r fuel cs
    | some 0 => 1 + findallAux r fuel cs
    | some (l + 1) => 1 + findallAux r fuel (List.drop l cs)

/-- Model of `len(re.findall(r, s))`. -/
def findallCount (r : Reg) (s : List Char) : Nat := findallAux r (s.length + 1) s

/-- Single-character regex. -/
def chrR (c : Char) : Reg := .cls fun x => x == c

/-- Literal-string regex. -/
def rstr (s : String) : Reg := s.data.foldr (fun c r => rcat (chrR c) r) .eps

/-- Regex `r+`. -/
def rplus (r : Reg) : Reg := .cat r (.star r)

/-- Regex `r?`. -/
def ropt (r : Reg) : Reg := .alt r .eps

/-- Sequence of regexes. -/
def rseq (l : List Reg) : Reg := l.foldr rcat .eps

/-- Class `[A-Z]`. -/
def upperAZ : Reg := .cls fun c => 'A' ≤ c && c ≤ 'Z'

/-- Class `[a-zA-Z]`. -/
def alphaAZ : Reg := .cls fun c => ('A' ≤ c && c ≤ 'Z') || ('a' ≤ c && c ≤ 'z')

/-- Class `\d`. -/
def digitR : Reg := .cls Char.isDigit

/-- Class `\s`. -/
def spaceR : Reg := .cls pySpace

/-- Pattern `(?:19|20)\d{2}`. -/
def yearR : Reg := rcat (ralt (rstr "19") (rstr "20")) (rcat digitR digitR)

/-- Pattern `[A-Z][a-zA-Z]+`: one author name. -/
def nameR : Reg := rcat upperAZ (rplus alphaAZ)

/-- First entry of `CITATION_PATTERNS`:
`\((?:[A-Z][a-zA-Z]+(?:,?\s*&?\s*[A-Z][a-zA-Z]+)*,\s*(?:19|20)\d{2})\)`. -/
def citPatParen : Reg :=
  rseq [chrR '(', nameR,
        .star (rseq [ropt (chrR ','), .star spaceR, ropt (chrR '&'),
                     .star spaceR, nameR]),
        chrR ',', .star spaceR, yearR, chrR ')']

/-- Pattern `\d{1,3}`. -/
def d13 : Reg := rcat digitR (ropt (rcat digitR (ropt digitR)))

/-- Second entry of `CITATION_PATTERNS`:
`\[(?:\d{1,3})(?:,?\s*\d{1,3}|-\d{1,3})*\]`. -/
def citPatBracket : Reg :=
  rseq [chrR '[', d13,
        .star (ralt (rseq [ropt (chrR ','), .star spaceR, d13])
                    (rcat (chrR '-') d13)),
        chrR ']']

/-- The inline author-year pattern added in `count_citations`:
`[A-Z][a-zA-Z]+\s*\((?:19|20)\d{2}\)`. -/
def citPatInline : Reg :=
  rseq [upperAZ, rplus alphaAZ, .star spaceR, chrR '(', yearR, chrR ')']

/-- Function `count_citations` of `scoring.py`: the match counts of the two
`CITATION_PATTERNS` entries plus the inline author-year count, added with
no deduplication. -/
def count_citations (text : String) : Nat :=
  findallCount citPatParen text.data + findallCount citPatBracket text.data +
    findallCount citPatInline text.data

example :
    count_citations "Silva (2020) encontrou... [1, 2] e também (Souza & Lima, 2019)."
      = 3 := by decide

example : findallCount citPatBracket ("[1-3] e [12, 34] ok").data = 2 := by decide

example : findallCount citPatParen ("[1-3] e [12, 34] ok").data = 0 := by decide

example : findallCount citPatParen ("(Silva, 2020) (A, 1999)").data = 1 := by decide

example : findallCount citPatInline ("(Silva, 2020) (A, 1999)").data = 0 := by decide

example : findallCount citPatInline ("Ab (1999) Xy(2001)").data = 2 := by decide

example : count_citations "texto sem nada" = 0 := by decide

example : sentSplit ("a.. b").data = [("a.").data, ("b").data] := by decide

example : sentSplit ("a.\nb").data = [("a").data, ("b").data] := by decide

example : sentSplit ("").data = [[]] := by decide

/-- Function `clamp` of `scoring.py` with its default bounds 1.0 and 10.0. -/
def clamp (x : ℚ) : ℚ := max 1 (min 10 x)

/-- Python `round(·, 1)`.  Modelled as round-half-up on exact rationals;
every value the program rounds is an exact multiple of 1/10, so no tie is
ever hit and this agrees with Python's half-even float rounding there. -/
def round1 (x : ℚ) : ℚ := (⌊10 * x + 1 / 2⌋ : ℚ) / 10

/-- Function `explain` of `scoring.py`. -/
def explain (label : String) (details : List String) : String :=
  if details.isEmpty then label ++ ": sem evidências claras."
  else label ++ ": " ++ String.intercalate "; " details ++ "."

/-- Python `f"{x:.1f}"` for the nonnegative values the program displays
(round-half-up; display only, no score depends on it). -/
def fmt1 (x : ℚ) : String :=
  let n := (⌊10 * x + 1 / 2⌋).toNat
  toString (n / 10) ++ "." ++ toString (n % 10)

/-- The novelty keyword list of the Relevance scorer. -/
def NOVELTY_KEYWORDS : List String :=
  ["propomos", "apresentamos", "neste trabalho", "contribuição", "novel",
   "novo", "inédito"]

/-- Count `novelty_signals` of `scoring.py`: how many distinct novelty keywords
occur in the lowercased text. -/
def novelty_signals (text : String) : Nat :=
  NOVELTY_KEYWORDS.countP fun k => containsS (pyLower text) k

/-- Test `"lacuna" in text.lower() or "gap" in text.lower()`. -/
def mentionsGap (text : String) : Bool :=
  containsS (pyLower text) "lacuna" || containsS (pyLower text) "gap"

/-- The Relevance & Originality score before rounding (`rel_score`). -/
def rel_score (text : String) : ℚ :=
  clamp ((5 + 2 * (novelty_signals text : ℚ)) +
    if mentionsGap text then 1 else 0)

/-- Test `re.search(r"\b(amostra|amostragem|dataset|base de dados)\b", ·)`. -/
def mentionsSample (text : String) : Bool :=
  wordSearch ["amostra", "amostragem", "dataset", "base de dados"]
    (pyLower text)

/-- Test `re.search(r"\b(reprodutibil|protocolo|pré\-registro|pré registro)\b", ·)`. -/
def mentionsProtocol (text : String) : Bool :=
  wordSearch ["reprodutibil", "protocolo", "pré-registro", "pré registro"]
    (pyLower text)

/-- Test `re.search(r"\b(quantitativ|qualitativ)\b", ·)`. -/
def mentionsQuantQual (text : String) : Bool :=
  wordSearch ["quantitativ", "qualitativ"] (pyLower text)

/-- The Methodological Rigor score before rounding (`rigor_score`).  The
literal 1.5 of the source is the exact rational 3/2. -/
def rigor_score (text : String) (cov : List (String × Nat)) : ℚ :=
  clamp ((4 + 2 * (covGet cov "metodologia" : ℚ)) +
    (if mentionsSample text then 2 else 0) +
    (if mentionsProtocol text then 1 else 0) +
    (if mentionsQuantQual text then 3 / 2 else 0))

/-- The Writing Quality score before rounding (`qc`). -/
def qc_score (read : Readability) : ℚ :=
  clamp (7 -
    (if read.flesch_kincaid < 20 ∨ 70 < read.flesch_kincaid then 1 else 0) -
    (if read.word_count < 150 then 3 / 2 else 0) -
    (if 35 < read.avg_sentence_words then 3 / 2 else 0))

/-- Test `re.search(r"\b(literatura|referênci)\b", ·)`. -/
def mentionsLiterature (text : String) : Bool :=
  wordSearch ["literatura", "referênci"] (pyLower text)

/-- The Theoretical Grounding score before rounding (`ft`).  The literal
0.6 of the source is the exact rational 6/10. -/
def ft_score (text : String) (cov : List (String × Nat)) (cites : Nat) : ℚ :=
  clamp ((3 + ((min cites 10 : Nat) : ℚ) * (6 / 10)) +
    (if 0 < covGet cov "introdução" then 1 else 0) +
    (if mentionsLiterature text then 1 else 0))

/-- Test `"limitações" in text.lower() or "limitação" in text.lower()`. -/
def mentionsLimitations (text : String) : Bool :=
  containsS (pyLower text) "limitações" || containsS (pyLower text) "limitação"

/-- The Results & Discussion score before rounding (`rd`). -/
def rd_score (text : String) (cov : List (String × Nat)) : ℚ :=
  clamp ((3 + (3 / 2) * (covGet cov "resultados" : ℚ) +
      (3 / 2) * (covGet cov "discussão" : ℚ)) +
    (if mentionsLimitations text then 3 / 2 else 0) +
    (if 0 < covGet cov "conclusões" then 1 else 0))

example : mentionsQuantQual "abordagem quantitativa" = false := by decide

example : mentionsQuantQual "estudo quantitativ aqui" = true := by decide

example : mentionsProtocol "pré-registro feito" = true := by decide

example : mentionsSample "base de dados x" = true := by decide

example : mentionsLiterature "as referências dizem" = false := by decide

/-- Explanation for Relevance & Originality. -/
def rel_expl (text : String) : String :=
  explain "Base"
    ["sinais de novidade=" ++ toString (novelty_signals text),
     if mentionsGap text then "menciona lacuna"
     else "sem menção explícita a lacuna"]

/-- Explanation for Methodological Rigor. -/
def rigor_expl (text : String) (cov : List (String × Nat)) : String :=
  explain "Base"
    ["sinais de metodologia=" ++ toString (covGet cov "metodologia"),
     if mentionsSample text then "menciona amostra/dataset"
     else "sem amostra/dataset",
     if mentionsProtocol text then "menciona reprodutibilidade/protocolo"
     else "sem menção a reprodutibilidade",
     if mentionsQuantQual text then "menciona abordagem quantitativa/qualitativa"
     else "sem menção a tipo de dado"]

/-- Explanation for Writing Quality. -/
def qc_expl (read : Readability) : String :=
  explain "Base"
    ["média palavras por sentença=" ++ fmt1 read.avg_sentence_words,
     "tamanho do texto=" ++ toString read.word_count ++ " palavras",
     "Índice Flesch-Kincaid (simplificado)=" ++ fmt1 read.flesch_kincaid]

/-- Explanation for Theoretical Grounding. -/
def ft_expl (text : String) (cov : List (String × Nat)) (cites : Nat) : String :=
  explain "Base"
    ["citações detectadas=" ++ toString cites,
     if 0 < covGet cov "introdução" then "há sinais de introdução"
     else "sem sinais de introdução",
     if mentionsLiterature text then "menciona literatura/referências"
     else "sem menção à literatura"]

/-- Explanation for Results & Discussion. -/
def rd_expl (text : String) (cov : List (String × Nat)) : String :=
  explain "Base"
    ["sinais de resultados=" ++ toString (covGet cov "resultados"),
     "sinais de discussão=" ++ toString (covGet cov "discussão"),
     if mentionsLimitations text then "menciona limitações"
     else "sem menção a limitações",
     if 0 < covGet cov "conclusões" then "menciona conclusões/trabalhos futuros"
     else "sem menção a conclusões"]

/-- Constant `DIMENSIONS` of `scoring.py`. -/
def DIMENSIONS : List String :=
  ["Relevância e Originalidade", "Rigor Metodológico", "Qualidade da Escrita",
   "Fundamentação Teórica", "Resultados e Discussão"]

/-- The `signals` part of the result dict. -/
structure Signals where
  section_coverage : List (String × Nat)
  citations : Nat
  readability : Readability

/-- The dict returned by `score`; `signals` is absent (`none`) exactly
when the key is absent from the Python dict. -/
structure ScoreResult where
  scores : List (String × ℚ)
  explainability : List (String × String)
  signals : Option Signals

/-- The fixed explanation of the empty-text short-circuit. -/
def emptyMsg : String := "Texto vazio, atribuído mínimo 1."

/-- Function `score` of `scoring.py`. -/
def score (input : String) : ScoreResult :=
  let text := pyStrip input
  if text.data.isEmpty then
    { scores := DIMENSIONS.map fun d => (d, (1 : ℚ)),
      explainability := DIMENSIONS.map fun d => (d, emptyMsg),
      signals := none }
  else
    let cov := section_coverage text
    let cites := count_citations text
    let read := readability_signals text
    { scores :=
        [("Relevância e Originalidade", round1 (rel_score text)),
         ("Rigor Metodológico", round1 (rigor_score text cov)),
         ("Qualidade da Escrita", round1 (qc_score read)),
         ("Fundamentação Teórica", round1 (ft_score text cov cites)),
         ("Resultados e Discussão", round1 (rd_score text cov))],
      explainability :=
        [("Relevância e Originalidade", rel_expl text),
         ("Rigor Metodológico", rigor_expl text cov),
         ("Qualidade da Escrita", qc_expl read),
         ("Fundamentação Teórica", ft_expl text cov cites),
         ("Resultados e Discussão", rd_expl text cov)],
      signals := some ⟨cov, cites, read⟩ }

/-- Python `scores[k]` on the association-list model of the score dict
(0 as a formal default; every key looked up below is present). -/
def scoreGet (scores : List (String × ℚ)) (k : String) : ℚ :=
  match scores.find? (fun p => p.1 == k) with
  | some p => p.2
  | none => 0

/-! Helper lemmas about strings, clamping and rounding. -/

theorem data_isEmpty_false {s : String} (h : s ≠ "") : s.data.isEmpty = false := by
  cases s with
  | mk data =>
    cases data with
    | nil => exact absurd rfl h
    | cons c cs => rfl

theorem one_le_clamp (x : ℚ) : 1 ≤ clamp x := le_max_left _ _

theorem clamp_le_ten (x : ℚ) : clamp x ≤ 10 :=
  max_le (by norm_num) (min_le_left _ _)

theorem clamp_mono {x y : ℚ} (h : x ≤ y) : clamp x ≤ clamp y :=
  max_le_max le_rfl (min_le_min le_rfl h)

theorem clamp_eq_self {x : ℚ} (h1 : 1 ≤ x) (h2 : x ≤ 10) : clamp x = x := by
  unfold clamp
  rw [min_eq_right h2, max_eq_right h1]

theorem round1_mono {x y : ℚ} (h : x ≤ y) : round1 x ≤ round1 y := by
  unfold round1
  have hf : ⌊10 * x + 1 / 2⌋ ≤ ⌊10 * y + 1 / 2⌋ := Int.floor_mono (by linarith)
  have hc : ((⌊10 * x + 1 / 2⌋ : ℤ) : ℚ) ≤ ((⌊10 * y + 1 / 2⌋ : ℤ) : ℚ) :=
    Int.cast_le.mpr hf
  linarith

/-- Exact multiples of 1/10: the values the engine actually rounds. -/
def IsTenth (x : ℚ) : Prop := ∃ n : ℤ, x = (n : ℚ) / 10

theorem isTenth_of_eq {x : ℚ} (n : ℤ) (h : x = (n : ℚ) / 10) : IsTenth x := ⟨n, h⟩

theorem isTenth_nat (n : ℕ) : IsTenth (n : ℚ) :=
  ⟨10 * n, by push_cast; ring⟩

theorem IsTenth.add {x y : ℚ} (hx : IsTenth x) (hy : IsTenth y) :
    IsTenth (x + y) := by
  obtain ⟨n, rfl⟩ := hx
  obtain ⟨m, rfl⟩ := hy
  exact ⟨n + m, by push_cast; ring⟩

theorem IsTenth.sub {x y : ℚ} (hx : IsTenth x) (hy : IsTenth y) :
    IsTenth (x - y) := by
  obtain ⟨n, rfl⟩ := hx
  obtain ⟨m, rfl⟩ := hy
  exact ⟨n - m, by push_cast; ring⟩

theorem IsTenth.ite (c : Prop) [Decidable c] {x y : ℚ} (hx : IsTenth x)
    (hy : IsTenth y) : IsTenth (if c then x else y) := by
  split
  · exact hx
  · exact hy

theorem round1_eq_self {x : ℚ} (h : IsTenth x) : round1 x = x := by
  obtain ⟨n, rfl⟩ := h
  unfold round1
  have harg : (10 : ℚ) * ((n : ℚ) / 10) + 1 / 2 = (n : ℚ) + 1 / 2 := by ring
  rw [harg]
  have hfl : ⌊(n : ℚ) + 1 / 2⌋ = n := by
    rw [Int.floor_int_add]
    have h0 : ⌊(1 / 2 : ℚ)⌋ = 0 := by
      apply Int.floor_eq_iff.mpr
      constructor <;> norm_num
    rw [h0, add_zero]
  rw [hfl]

theorem isTenth_clamp {x : ℚ} (h : IsTenth x) : IsTenth (clamp x) := by
  unfold clamp
  rcases max_choice 1 (min 10 x) with hm | hm <;> rw [hm]
  · exact isTenth_of_eq 10 (by norm_num)
  · rcases min_choice 10 x with hn | hn <;> rw [hn]
    · exact isTenth_of_eq 100 (by norm_num)
    · exact h

theorem round1_clamp_eq {x : ℚ} (h : IsTenth x) : round1 (clamp x) = clamp x :=
  round1_eq_self (isTenth_clamp h)

theorem round1_clamp_bounds (x : ℚ) :
    1 ≤ round1 (clamp x) ∧ round1 (clamp x) ≤ 10 := by
  have h1 := round1_mono (one_le_clamp x)
  have h2 := round1_mono (clamp_le_ten x)
  have e1 : round1 1 = 1 := round1_eq_self (isTenth_of_eq 10 (by norm_num))
  have e10 : round1 10 = 10 := round1_eq_self (isTenth_of_eq 100 (by norm_num))
  rw [e1] at h1
  rw [e10] at h2
  exact ⟨h1, h2⟩

theorem score_scores_of_ne {t : String} (h : pyStrip t ≠ "") :
    (score t).scores =
      [("Relevância e Originalidade", round1 (rel_score (pyStrip t))),
       ("Rigor Metodológico",
        round1 (rigor_score (pyStrip t) (section_coverage (pyStrip t)))),
       ("Qualidade da Escrita",
        round1 (qc_score (readability_signals (pyStrip t)))),
       ("Fundamentação Teórica",
        round1 (ft_score (pyStrip t) (section_coverage (pyStrip t))
          (count_citations (pyStrip t)))),
       ("Resultados e Discussão",
        round1 (rd_score (pyStrip t) (section_coverage (pyStrip t))))] := by
  simp [score, data_isEmpty_false h]

theorem covGet_metodologia (t : String) :
    covGet (section_coverage t) "metodologia" =
      (["método", "metodologia", "procedimentos", "amostra", "amostragem",
        "instrumento"] : List String).countP
        (fun h => containsS (pyLower t) h) := by
  simp [section_coverage, SECTION_HINTS, covGet]

/-! Theorems for the spec claims. -/

/-- Claim C1: for every input string, `score` returns a result in which each of
the five dimension scores lies in the closed interval [1, 10]; on the
normal path each raw heuristic value is clamped into [1, 10] and rounded
to one decimal, and on the empty-text short-circuit all scores equal 1. -/
theorem score_dimension_bounds (t : String) (d : String) (hd : d ∈ DIMENSIONS) :
    1 ≤ scoreGet (score t).scores d ∧ scoreGet (score t).scores d ≤ 10 := by
  simp only [DIMENSIONS, List.mem_cons, List.not_mem_nil, or_false] at hd
  by_cases h : pyStrip t = ""
  · have hs : (score t).scores = DIMENSIONS.map fun d => (d, (1 : ℚ)) := by
      simp [score, h]
    rw [hs]
    rcases hd with rfl | rfl | rfl | rfl | rfl <;>
      simp [scoreGet, DIMENSIONS]
  · rw [score_scores_of_ne h]
    rcases hd with rfl | rfl | rfl | rfl | rfl <;>
      · simp only [scoreGet, List.find?]
        norm_num
        exact round1_clamp_bounds _

/-- Witness for C1 at a concrete input and dimension. -/
theorem score_dimension_bounds_witness :
    ("Qualidade da Escrita" ∈ DIMENSIONS) ∧
      (1 ≤ scoreGet (score "teste").scores "Qualidade da Escrita" ∧
        scoreGet (score "teste").scores "Qualidade da Escrita" ≤ 10) :=
  ⟨by decide, score_dimension_bounds "teste" "Qualidade da Escrita" (by decide)⟩

/-- Claim C2: for every input that is empty or whitespace-only, all five scores
equal exactly 1, every explanation is the single fixed empty-text message,
and the result carries no signals field. -/
theorem score_empty_shortcircuit (t : String) (h : t.data.all pySpace = true) :
    (score t).scores = DIMENSIONS.map (fun d => (d, (1 : ℚ))) ∧
      (score t).explainability = DIMENSIONS.map (fun d => (d, emptyMsg)) ∧
      (score t).signals = none := by
  have h1 : t.data.dropWhile pySpace = [] := by
    rw [List.dropWhile_eq_nil_iff]
    intro a ha
    exact List.all_eq_true.mp h a ha
  have hstrip : pyStrip t = "" := by
    unfold pyStrip
    rw [h1]
    rfl
  refine ⟨?_, ?_, ?_⟩ <;> simp [score, hstrip]

/-- Witness for C2 at a concrete whitespace-only input. -/
theorem score_empty_shortcircuit_witness :
    (("  \t ").data.all pySpace = true) ∧
      ((score "  \t ").scores = DIMENSIONS.map (fun d => (d, (1 : ℚ))) ∧
        (score "  \t ").explainability = DIMENSIONS.map (fun d => (d, emptyMsg)) ∧
        (score "  \t ").signals = none) :=
  ⟨by decide, score_empty_shortcircuit "  \t " (by decide)⟩

/-- The Citation Detector test input of the spec. -/
def c5Input : String :=
  "Silva (2020) encontrou... [1, 2] e também (Souza & Lima, 2019)."

/-- Claim C5: on the spec's test input the Citation Detector counts at least 3
(exactly one inline author-year match, one bracketed numeric-pair match,
one parenthetical multi-author match), and in general its count is the sum
over all pattern matchers with no deduplication. -/
theorem citation_detector_example :
    3 ≤ count_citations c5Input ∧
      findallCount citPatInline c5Input.data = 1 ∧
      findallCount citPatBracket c5Input.data = 1 ∧
      findallCount citPatParen c5Input.data = 1 ∧
      ∀ t : String,
        count_citations t =
          findallCount citPatParen t.data + findallCount citPatBracket t.data +
            findallCount citPatInline t.data :=
  ⟨by decide, by decide, by decide, by decide, fun t => rfl⟩

/-- Claim C10: any input whose lowercased text contains the substring
"amostragem" scores at least 2 methodology hints, because the overlapping
hint "amostra" necessarily fires with it. -/
theorem amostragem_two_hints (t : String)
    (h : containsS (pyLower t) "amostragem" = true) :
    2 ≤ covGet (section_coverage t) "metodologia" := by
  have ham : containsS (pyLower t) "amostra" = true := by
    rw [containsS, listContains_iff] at h ⊢
    have hsub : ("amostra").data <:+: ("amostragem").data := by
      rw [← listContains_iff]
      decide
    exact hsub.trans h
  rw [covGet_metodologia]
  simp only [List.countP_cons, List.countP_nil, h, ham]
  split_ifs <;> simp_all

/-- Witness for C10 at a concrete input containing "amostragem". -/
theorem amostragem_two_hints_witness :
    (containsS (pyLower "a amostragem usada") "amostragem" = true) ∧
      2 ≤ covGet (section_coverage "a amostragem usada") "metodologia" :=
  ⟨by decide, amostragem_two_hints "a amostragem usada" (by decide)⟩

/-- The input refuting C6 as frozen. -/
def c6Input : String := "metodologia amostra procedimentos"

/-- Claim C6 counterexample: an input containing both "metodologia" and
"amostra" whose methodology coverage is not 2 (the extra hint
"procedimentos" also fires, giving 3). -/
theorem section_coverage_not_exactly_two :
    containsS c6Input "metodologia" = true ∧
      containsS c6Input "amostra" = true ∧
      covGet (section_coverage c6Input) "metodologia" ≠ 2 := by
  decide

/-- Claim C6 amended: section coverage counts, for each of the five
canonical sections, the distinct hints present as substrings of the
lowercased text (occurrences beyond the first never add); the methodology
entry equals 2 when, of its six hints, exactly "metodologia" and
"amostra" occur, and 0 when none of the six occurs. -/
theorem section_coverage_distinct_hits :
    (∀ t : String,
      section_coverage t =
        SECTION_HINTS.map fun sh =>
          (sh.1, (sh.2.filter (fun h => containsS (pyLower t) h)).length)) ∧
    (∀ t : String,
      containsS (pyLower t) "metodologia" = true →
      containsS (pyLower t) "amostra" = true →
      containsS (pyLower t) "método" = false →
      containsS (pyLower t) "procedimentos" = false →
      containsS (pyLower t) "amostragem" = false →
      containsS (pyLower t) "instrumento" = false →
      covGet (section_coverage t) "metodologia" = 2) ∧
    (∀ t : String,
      (∀ h ∈ (["método", "metodologia", "procedimentos", "amostra",
               "amostragem", "instrumento"] : List String),
        containsS (pyLower t) h = false) →
      covGet (section_coverage t) "metodologia" = 0) := by
  refine ⟨fun t => ?_, fun t h1 h2 h3 h4 h5 h6 => ?_, fun t hall => ?_⟩
  · simp only [section_coverage, List.countP_eq_length_filter]
  · rw [covGet_metodologia]
    simp [List.countP_cons, h1, h2, h3, h4, h5, h6]
  · rw [covGet_metodologia]
    rw [List.countP_eq_zero]
    intro a ha
    simp [hall a ha]

/-- Witness for the amended C6 at concrete inputs. -/
theorem section_coverage_distinct_hits_witness :
    covGet (section_coverage "metodologia e amostra") "metodologia" = 2 ∧
      covGet (section_coverage "texto neutro") "metodologia" = 0 :=
  ⟨section_coverage_distinct_hits.2.1 "metodologia e amostra" (by decide)
      (by decide) (by decide) (by decide) (by decide) (by decide),
    section_coverage_distinct_hits.2.2 "texto neutro" (by decide)⟩

theorem scoreGet_qc {t : String} (h : pyStrip t ≠ "") :
    scoreGet (score t).scores "Qualidade da Escrita" =
      round1 (qc_score (readability_signals (pyStrip t))) := by
  rw [score_scores_of_ne h]
  simp [scoreGet]

theorem round1_qc (read : Readability) :
    round1 (qc_score read) = qc_score read := by
  unfold qc_score
  apply round1_clamp_eq
  refine IsTenth.sub (IsTenth.sub (IsTenth.sub (isTenth_of_eq 70 (by norm_num))
    (IsTenth.ite _ (isTenth_of_eq 10 (by norm_num))
      (isTenth_of_eq 0 (by norm_num))))
    (IsTenth.ite _ (isTenth_of_eq 15 (by norm_num))
      (isTenth_of_eq 0 (by norm_num))))
    (IsTenth.ite _ (isTenth_of_eq 15 (by norm_num))
      (isTenth_of_eq 0 (by norm_num)))

/-- Claim C3: for every non-empty input the Writing Quality score equals the
clamp into [1, 10] of 7 minus 1 when the approximate readability index
lies outside [20, 70], minus 3/2 when the word count is below 150, minus
3/2 when the average sentence length exceeds 35, each penalty applied
independently. -/
theorem writing_quality_formula (t : String) (h : pyStrip t ≠ "") :
    scoreGet (score t).scores "Qualidade da Escrita" =
      clamp (7 -
        (if (readability_signals (pyStrip t)).flesch_kincaid < 20 ∨
            70 < (readability_signals (pyStrip t)).flesch_kincaid
         then 1 else 0) -
        (if (readability_signals (pyStrip t)).word_count < 150
         then 3 / 2 else 0) -
        (if 35 < (readability_signals (pyStrip t)).avg_sentence_words
         then 3 / 2 else 0)) := by
  rw [scoreGet_qc h, round1_qc]
  rfl

/-- Witness for C3 at a concrete non-empty input. -/
theorem writing_quality_formula_witness :
    (pyStrip "a" ≠ "") ∧
      scoreGet (score "a").scores "Qualidade da Escrita" =
        clamp (7 -
          (if (readability_signals (pyStrip "a")).flesch_kincaid < 20 ∨
              70 < (readability_signals (pyStrip "a")).flesch_kincaid
           then 1 else 0) -
          (if (readability_signals (pyStrip "a")).word_count < 150
           then 3 / 2 else 0) -
          (if 35 < (readability_signals (pyStrip "a")).avg_sentence_words
           then 3 / 2 else 0)) :=
  ⟨by decide, writing_quality_formula "a" (by decide)⟩

/-- Claim C9 (implicit): for every input that is non-empty after trimming, the
Writing Quality score lies in [3, 7]: there are no bonuses above the base
7 and the three penalties sum to at most 4, so the clamp bounds 1 and 10
are never attained by this dimension. -/
theorem writing_quality_range (t : String) (h : pyStrip t ≠ "") :
    3 ≤ scoreGet (score t).scores "Qualidade da Escrita" ∧
      scoreGet (score t).scores "Qualidade da Escrita" ≤ 7 := by
  rw [scoreGet_qc h, round1_qc]
  unfold qc_score
  constructor <;> (split_ifs <;> norm_num [clamp, min_def, max_def])

/-- Witness for C9 at a concrete non-empty input. -/
theorem writing_quality_range_witness :
    (pyStrip "b" ≠ "") ∧
      (3 ≤ scoreGet (score "b").scores "Qualidade da Escrita" ∧
        scoreGet (score "b").scores "Qualidade da Escrita" ≤ 7) :=
  ⟨by decide, writing_quality_range "b" (by decide)⟩

theorem scoreGet_ft {t : String} (h : pyStrip t ≠ "") :
    scoreGet (score t).scores "Fundamentação Teórica" =
      round1 (ft_score (pyStrip t) (section_coverage (pyStrip t))
        (count_citations (pyStrip t))) := by
  rw [score_scores_of_ne h]
  simp [scoreGet]

theorem round1_ft (text : String) (cov : List (String × Nat)) (cites : Nat) :
    round1 (ft_score text cov cites) = ft_score text cov cites := by
  unfold ft_score
  apply round1_clamp_eq
  refine IsTenth.add (IsTenth.add
    (IsTenth.add (isTenth_of_eq 30 (by norm_num))
      ⟨6 * (min cites 10 : ℕ), by push_cast; ring⟩)
    (IsTenth.ite _ (isTenth_of_eq 10 (by norm_num))
      (isTenth_of_eq 0 (by norm_num))))
    (IsTenth.ite _ (isTenth_of_eq 10 (by norm_num))
      (isTenth_of_eq 0 (by norm_num)))

/-- Claim C4: for every non-empty input the Theoretical Grounding score equals
the clamp into [1, 10] of 3, plus min(citations, 10) × 6/10 (so the
citation contribution saturates at 6), plus 1 when the introduction
section has a hit, plus 1 when the literature/references pattern matches. -/
theorem grounding_formula (t : String) (h : pyStrip t ≠ "") :
    scoreGet (score t).scores "Fundamentação Teórica" =
      clamp ((3 + ((min (count_citations (pyStrip t)) 10 : ℕ) : ℚ) * (6 / 10)) +
        (if 0 < covGet (section_coverage (pyStrip t)) "introdução"
         then 1 else 0) +
        (if mentionsLiterature (pyStrip t) then 1 else 0)) := by
  rw [scoreGet_ft h, round1_ft]
  rfl

/-- Witness for C4 at a concrete non-empty input. -/
theorem grounding_formula_witness :
    (pyStrip "c" ≠ "") ∧
      scoreGet (score "c").scores "Fundamentação Teórica" =
        clamp ((3 + ((min (count_citations (pyStrip "c")) 10 : ℕ) : ℚ) * (6 / 10)) +
          (if 0 < covGet (section_coverage (pyStrip "c")) "introdução"
           then 1 else 0) +
          (if mentionsLiterature (pyStrip "c") then 1 else 0)) :=
  ⟨by decide, grounding_formula "c" (by decide)⟩

theorem scoreGet_rel {t : String} (h : pyStrip t ≠ "") :
    scoreGet (score t).scores "Relevância e Originalidade" =
      round1 (rel_score (pyStrip t)) := by
  rw [score_scores_of_ne h]
  simp [scoreGet]

/-- Claim C8: over non-empty inputs, if the second input has strictly more
distinct novelty keywords than the first while the research-gap signal is
the same, then its Relevance & Originality score is at least the first
one's (the clamp ceiling 10 saturates the growth). -/
theorem relevance_monotone (t1 t2 : String) (h1 : pyStrip t1 ≠ "")
    (h2 : pyStrip t2 ≠ "")
    (hn : novelty_signals (pyStrip t1) < novelty_signals (pyStrip t2))
    (hg : mentionsGap (pyStrip t1) = mentionsGap (pyStrip t2)) :
    scoreGet (score t1).scores "Relevância e Originalidade" ≤
      scoreGet (score t2).scores "Relevância e Originalidade" := by
  rw [scoreGet_rel h1, scoreGet_rel h2]
  apply round1_mono
  unfold rel_score
  apply clamp_mono
  rw [hg]
  have hc : (novelty_signals (pyStrip t1) : ℚ) ≤
      (novelty_signals (pyStrip t2) : ℚ) := by exact_mod_cast hn.le
  linarith

/-- Witness for C8 at concrete inputs with 0 < 1 novelty keywords. -/
theorem relevance_monotone_witness :
    (pyStrip "a" ≠ "") ∧ (pyStrip "propomos" ≠ "") ∧
      novelty_signals (pyStrip "a") < novelty_signals (pyStrip "propomos") ∧
      mentionsGap (pyStrip "a") = mentionsGap (pyStrip "propomos") ∧
      scoreGet (score "a").scores "Relevância e Originalidade" ≤
        scoreGet (score "propomos").scores "Relevância e Originalidade" :=
  ⟨by decide, by decide, by decide, by decide,
    relevance_monotone "a" "propomos" (by decide) (by decide) (by decide)
      (by decide)⟩

theorem sentSplitAux_no_break :
    ∀ (fuel : Nat) (s cur : List Char), s.length < fuel →
      hasSentBreak s = false →
      sentSplitAux fuel s cur = [cur.reverse ++ s] := by
  intro fuel
  induction fuel with
  | zero =>
    intro s cur hlen hb
    exact absurd hlen (Nat.not_lt_zero _)
  | succ f ih =>
    intro s cur hlen hb
    cases s with
    | nil => simp [sentSplitAux]
    | cons c cs =>
      cases cs with
      | nil =>
        simp only [sentSplitAux, Bool.and_false]
        rw [if_neg (by simp)]
        rw [ih [] (c :: cur) (Nat.lt_of_succ_lt_succ (by simpa using hlen)) rfl]
        simp
      | cons c2 rest =>
        have hb2 : (isTermPunct c && pySpace c2) = false ∧
            hasSentBreak (c2 :: rest) = false := by
          have hu : hasSentBreak (c :: c2 :: rest) =
              ((isTermPunct c && pySpace c2) || hasSentBreak (c2 :: rest)) := rfl
          rw [hu] at hb
          exact Bool.or_eq_false_iff.mp hb
        simp only [sentSplitAux]
        rw [if_neg (by simp [hb2.1])]
        rw [ih (c2 :: rest) (c :: cur) (by simpa using Nat.lt_of_succ_lt_succ hlen)
          hb2.2]
        simp

theorem sentSplit_no_break {s : List Char} (h : hasSentBreak s = false) :
    sentSplit s = [s] := by
  unfold sentSplit
  rw [sentSplitAux_no_break (s.length + 1) s [] (by omega) h]
  simp

theorem readability_no_break (t : String)
    (h : hasSentBreak (pyStrip t).data = false) :
    (readability_signals t).sentence_count = 1 ∧
      (readability_signals t).avg_sentence_words =
        ((runs (fun c => !pySpace c) (pyStrip t).data).length : ℚ) := by
  unfold readability_signals
  rw [sentSplit_no_break h]
  simp [sentWordSum]

/-- A string of 150 occurrences of "w" joined by commas: one whitespace token but 150
`\w+` words. -/
def c7Input : String := String.intercalate "," (List.replicate 150 "w")

/-- Claim C7 counterexample: a single-sentence input whose `\w+` word count is
150 but whose `avg_sentence_words` is 1, because that average divides
whitespace-token counts, not `\w+` word counts. -/
theorem readability_word_token_mismatch :
    (readability_signals c7Input).word_count = 150 ∧
      hasSentBreak (pyStrip c7Input).data = false ∧
      (readability_signals c7Input).sentence_count = 1 ∧
      (readability_signals c7Input).avg_sentence_words ≠ 150 := by
  have hb : hasSentBreak (pyStrip c7Input).data = false := by decide
  have h1 : (runs (fun c => !pySpace c) (pyStrip c7Input).data).length = 1 := by
    decide
  refine ⟨by decide, hb, (readability_no_break _ hb).1, ?_⟩
  rw [(readability_no_break _ hb).2, h1]
  norm_num

/-- Claim C7 amended: every text with no sentence-terminal punctuation followed
by whitespace yields `sentence_count = 1`, and every single-sentence input
consisting of 150 whitespace-separated words reports `sentence_count = 1`
and `avg_sentence_words = 150`. -/
theorem readability_single_sentence :
    (∀ t : String, hasSentBreak (pyStrip t).data = false →
      (readability_signals t).sentence_count = 1) ∧
    (∀ t : String, hasSentBreak (pyStrip t).data = false →
      (runs (fun c => !pySpace c) (pyStrip t).data).length = 150 →
      (readability_signals t).sentence_count = 1 ∧
        (readability_signals t).avg_sentence_words = 150) := by
  constructor
  · intro t h
    exact (readability_no_break t h).1
  · intro t h h150
    refine ⟨(readability_no_break t h).1, ?_⟩
    rw [(readability_no_break t h).2, h150]
    norm_num

/-- A string of 150 occurrences of "w" joined by single spaces. -/
def c7Witness : String := String.intercalate " " (List.replicate 150 "w")

/-- Witness for the amended C7 at concrete inputs. -/
theorem readability_single_sentence_witness :
    ((readability_signals "sem pontuacao final").sentence_count = 1) ∧
      ((readability_signals c7Witness).sentence_count = 1 ∧
        (readability_signals c7Witness).avg_sentence_words = 150) :=
  ⟨readability_single_sentence.1 "sem pontuacao final" (by decide),
    readability_single_sentence.2 c7Witness (by decide) (by decide)⟩

end PeerReviewAI
